import Mathlib

/-!
A verification development for the flask-profiler-modern measurement pipeline
and storage backends.  The Python sources are shallowly embedded: pure
fragments become Lean functions, the sqlite / sqlalchemy database state
becomes explicit record lists, wall-clock reads become an explicit clock
stream, and Python `float` arithmetic on timestamps is idealised as exact
rational arithmetic.  Machine-level binary floating point is out of scope;
all decimal rounding operators below act on the exact rational value.
-/

/-! ## Python numeric primitives -/

/-- Round a rational to the nearest integer, ties to even: the semantics of
Python `round(x)` (banker's rounding). -/
def roundHalfEven (q : ℚ) : ℤ :=
  let f : ℤ := ⌊q⌋
  let r : ℚ := q - (f : ℚ)
  if r < 1 / 2 then f
  else if 1 / 2 < r then f + 1
  else if f % 2 = 0 then f else f + 1

/-- Python `round(x, n)`: round half-to-even at `n` decimal places. -/
def pyRound (x : ℚ) (n : ℕ) : ℚ :=
  ((roundHalfEven (x * 10 ^ n) : ℤ) : ℚ) / 10 ^ n

/-- Ceiling of a rational as an integer. -/
def ceilQ (x : ℚ) : ℤ := -⌊-x⌋

/-- Python `decimal` quantization at 4 decimal places with `ROUND_UP`
(round away from zero), as used by `Sqlalchemy.insert` via
`Decimal(...).quantize(Decimal(".0001"), rounding=ROUND_UP)`. -/
def decimalQuantizeUp4 (x : ℚ) : ℚ :=
  (if 0 ≤ x then ((ceilQ (x * 10 ^ 4) : ℤ) : ℚ) else ((⌊x * 10 ^ 4⌋ : ℤ) : ℚ)) / 10 ^ 4

/-- Python `int(x)` on a float: truncation toward zero, computed on the
normalised fraction. -/
def pyInt (x : ℚ) : ℤ := x.num / (x.den : ℤ)

/-- Python `range(start, stop, step)` with a positive step, as a list. -/
def rangeList (start stop : ℤ) (step : ℕ) : List ℤ :=
  if step = 0 then []
  else (List.range (((stop - start).toNat + step - 1) / step)).map
    (fun k => start + (k : ℤ) * (step : ℤ))

/-! ## Python values and JSON text

`args` / `kwargs` / `context` travel through `json.dumps` / `json.loads` on
their way in and out of both storage backends, so the embedding carries a
type of Python values and an executable serializer and parser for the JSON
fragment those values use (null, booleans, integers, plain strings, arrays,
objects). -/

/-- A Python value as it appears in measurement `args`/`kwargs`/`context`. -/
inductive PyVal : Type where
  | none : PyVal
  | bool (b : Bool) : PyVal
  | int (n : ℤ) : PyVal
  | str (s : String) : PyVal
  | list (xs : List PyVal) : PyVal
  | tuple (xs : List PyVal) : PyVal
  | dict (kvs : List (String × PyVal)) : PyVal

/-- Python `list(x)` restricted to the sequence values the pipeline feeds it
(`args` is always a tuple or list of positional arguments). -/
def pyList : PyVal → PyVal
  | PyVal.tuple xs => PyVal.list xs
  | PyVal.list xs => PyVal.list xs
  | v => v

/-- Python `tuple(x)` on a decoded JSON array (`json.loads` only produces
lists, never tuples). -/
def pyTuple : PyVal → PyVal
  | PyVal.list xs => PyVal.tuple xs
  | v => v

mutual

/-- `json.dumps` with the default separators, for the JSON-compatible
fragment of `PyVal` (tuples serialize as arrays, as Python's encoder does). -/
def PyVal.dumps : PyVal → String
  | PyVal.none => "null"
  | PyVal.bool true => "true"
  | PyVal.bool false => "false"
  | PyVal.int n => toString n
  | PyVal.str s => "\"" ++ s ++ "\""
  | PyVal.list xs => "[" ++ dumpsList xs ++ "]"
  | PyVal.tuple xs => "[" ++ dumpsList xs ++ "]"
  | PyVal.dict kvs => "\x7b" ++ dumpsEntries kvs ++ "\x7d"

/-- Comma-separated serialization of array elements. -/
def dumpsList : List PyVal → String
  | [] => ""
  | [x] => PyVal.dumps x
  | x :: rest => PyVal.dumps x ++ ", " ++ dumpsList rest

/-- Comma-separated serialization of object entries. -/
def dumpsEntries : List (String × PyVal) → String
  | [] => ""
  | [kv] => "\"" ++ kv.1 ++ "\": " ++ PyVal.dumps kv.2
  | kv :: rest => "\"" ++ kv.1 ++ "\": " ++ PyVal.dumps kv.2 ++ ", " ++ dumpsEntries rest

end

/-- Skip JSON whitespace. -/
def skipWs : List Char → List Char
  | [] => []
  | c :: rest =>
    if c = ' ' || c = '\n' || c = '\t' || c = '\r' then skipWs rest else c :: rest

/-- Decimal digit test. -/
def isDigitCh (c : Char) : Bool := decide ('0' ≤ c) && decide (c ≤ '9')

/-- Numeric value of a digit character. -/
def digitVal (c : Char) : ℕ := c.toNat - Char.toNat '0'

/-- Consume a run of digits, accumulating their value. -/
def parseDigitsAux : List Char → ℕ → ℕ × List Char
  | [], acc => (acc, [])
  | c :: rest, acc =>
    if isDigitCh c then parseDigitsAux rest (acc * 10 + digitVal c) else (acc, c :: rest)

/-- Parse a nonempty digit run as a natural number. -/
def parseNat : List Char → Option (ℕ × List Char)
  | [] => Option.none
  | c :: rest =>
    if isDigitCh c then Option.some (parseDigitsAux rest (digitVal c)) else Option.none

/-- Parse the remainder of a JSON string (after the opening quote); the
pipeline's strings need no escape sequences. -/
def parseStrChars : List Char → Option (List Char × List Char)
  | [] => Option.none
  | c :: rest =>
    if c = '"' then Option.some ([], rest)
    else
      match parseStrChars rest with
      | Option.some (chars, rest2) => Option.some (c :: chars, rest2)
      | Option.none => Option.none

mutual

/-- Recursive-descent JSON value parser (fuel-indexed). -/
def parseVal : ℕ → List Char → Option (PyVal × List Char)
  | 0, _ => Option.none
  | fuel + 1, cs =>
    match skipWs cs with
    | [] => Option.none
    | c :: rest =>
      if c = 'n' then
        match rest with
        | 'u' :: 'l' :: 'l' :: rest2 => Option.some (PyVal.none, rest2)
        | _ => Option.none
      else if c = 't' then
        match rest with
        | 'r' :: 'u' :: 'e' :: rest2 => Option.some (PyVal.bool true, rest2)
        | _ => Option.none
      else if c = 'f' then
        match rest with
        | 'a' :: 'l' :: 's' :: 'e' :: rest2 => Option.some (PyVal.bool false, rest2)
        | _ => Option.none
      else if c = '"' then
        match parseStrChars rest with
        | Option.some (chars, rest2) => Option.some (PyVal.str (String.mk chars), rest2)
        | Option.none => Option.none
      else if c = '[' then
        match skipWs rest with
        | ']' :: rest2 => Option.some (PyVal.list [], rest2)
        | cs2 =>
          match parseItems fuel cs2 with
          | Option.some (vs, rest2) => Option.some (PyVal.list vs, rest2)
          | Option.none => Option.none
      else if c = Char.ofNat 123 then
        match skipWs rest with
        | c2 :: rest2 =>
          if c2 = Char.ofNat 125 then Option.some (PyVal.dict [], rest2)
          else
            match parseEntries fuel (c2 :: rest2) with
            | Option.some (kvs, rest3) => Option.some (PyVal.dict kvs, rest3)
            | Option.none => Option.none
        | [] => Option.none
      else if c = '-' then
        match parseNat rest with
        | Option.some (n, rest2) => Option.some (PyVal.int (-(n : ℤ)), rest2)
        | Option.none => Option.none
      else
        match parseNat (c :: rest) with
        | Option.some (n, rest2) => Option.some (PyVal.int ((n : ℤ)), rest2)
        | Option.none => Option.none

/-- Parse the elements of a nonempty JSON array up to the closing bracket. -/
def parseItems : ℕ → List Char → Option (List PyVal × List Char)
  | 0, _ => Option.none
  | fuel + 1, cs =>
    match parseVal fuel cs with
    | Option.some (v, rest) =>
      match skipWs rest with
      | ',' :: rest2 =>
        match parseItems fuel rest2 with
        | Option.some (vs, rest3) => Option.some (v :: vs, rest3)
        | Option.none => Option.none
      | ']' :: rest2 => Option.some ([v], rest2)
      | _ => Option.none
    | Option.none => Option.none

/-- Parse the entries of a nonempty JSON object up to the closing brace. -/
def parseEntries : ℕ → List Char → Option (List (String × PyVal) × List Char)
  | 0, _ => Option.none
  | fuel + 1, cs =>
    match skipWs cs with
    | '"' :: rest =>
      match parseStrChars rest with
      | Option.some (chars, rest2) =>
        match skipWs rest2 with
        | ':' :: rest3 =>
          match parseVal fuel rest3 with
          | Option.some (v, rest4) =>
            match skipWs rest4 with
            | ',' :: rest5 =>
              match parseEntries fuel rest5 with
              | Option.some (kvs, rest6) => Option.some ((String.mk chars, v) :: kvs, rest6)
              | Option.none => Option.none
            | c2 :: rest5 =>
              if c2 = Char.ofNat 125 then Option.some ([(String.mk chars, v)], rest5)
              else Option.none
            | [] => Option.none
          | Option.none => Option.none
        | _ => Option.none
      | Option.none => Option.none
    | _ => Option.none

end

/-- `json.loads` over the fragment produced by `PyVal.dumps`. -/
def loads (s : String) : Option PyVal :=
  match parseVal (s.length + 1) s.toList with
  | Option.some (v, rest) => if (skipWs rest).isEmpty then Option.some v else Option.none
  | Option.none => Option.none

/-! ## Date formatting (`formatDate` / `strftime`)

`datetime.fromtimestamp` converts an epoch timestamp to local wall-clock
time; the embedding fixes the local timezone to UTC (offset zero), so
`strftime` labels are computed from the UTC calendar. -/

/-- Floor of a rational, computed directly on the normalised fraction. -/
def ratFloor (x : ℚ) : ℤ := Int.fdiv x.num (x.den : ℤ)

/-- Gregorian calendar date of a day number counted from 1970-01-01
(Hinnant's `civil_from_days` algorithm): `(year, month, day)`. -/
def civilFromDays (z : ℤ) : ℤ × ℕ × ℕ :=
  let z2 : ℤ := z + 719468
  let era : ℤ := (if 0 ≤ z2 then z2 else z2 - 146096) / 146097
  let doe : ℕ := (z2 - era * 146097).toNat
  let yoe : ℕ := (doe - doe / 1460 + doe / 36524 - doe / 146096) / 365
  let y : ℤ := (yoe : ℤ) + era * 400
  let doy : ℕ := doe - (365 * yoe + yoe / 4 - yoe / 100)
  let mp : ℕ := (5 * doy + 2) / 153
  let d : ℕ := doy - (153 * mp + 2) / 5 + 1
  let m : ℕ := if mp < 10 then mp + 3 else mp - 9
  (y + (if m ≤ 2 then 1 else 0), m, d)

/-- Zero-pad a number to two digits, as `strftime` does for `%m`/`%d`/`%H`. -/
def pad2 (n : ℕ) : String :=
  if n < 10 then "0" ++ toString n else toString n

/-- `datetime.fromtimestamp(t).strftime(fmt)` for a whole-second timestamp,
with `fmt` either `"%Y-%m-%d %H"` (hourly) or `"%Y-%m-%d"` (daily). -/
def formatDateZ (t : ℤ) (daily : Bool) : String :=
  let days : ℤ := Int.fdiv t 86400
  let secs : ℕ := (t - days * 86400).toNat
  let ymd := civilFromDays days
  let date := toString ymd.1 ++ "-" ++ pad2 ymd.2.1 ++ "-" ++ pad2 ymd.2.2
  if daily then date else date ++ " " ++ pad2 (secs / 3600)

/-- The `formatDate` helper of both storage modules, on a float timestamp:
the sub-second part never reaches the `%Y-%m-%d %H` / `%Y-%m-%d` fields. -/
def formatDateQ (ts : ℚ) (daily : Bool) : String :=
  formatDateZ (ratFloor ts) daily

/-! ## Measurement capture (`Measurement.start` / `Measurement.stop`) -/

/-- `Measurement.stop`: `elapsed = round(endedAt - startedAt, 6)`
(`DECIMAL_PLACES = 6`). -/
def stopElapsed (startedAt endedAt : ℚ) : ℚ :=
  pyRound (endedAt - startedAt) 6

/-- The dictionary `Measurement.__json__()` hands to `Storage.insert`. -/
structure MeasurementJson where
  name : String
  args : PyVal
  kwargs : PyVal
  method : String
  startedAt : ℚ
  endedAt : ℚ
  elapsed : ℚ
  context : PyVal
  profile_stats : PyVal

/-- The record captured by a measured invocation that started at `t0` and
finished at `t1`: `start` stamps `startedAt`, `stop` stamps `endedAt` and
`elapsed`.  The opaque sampler blob is not modelled (`profile_stats` is
kept as `None`; the sampler module is outside the measured claims). -/
def mkMeasurementJson (name method : String) (context : PyVal) (args : List PyVal)
    (kwargs : List (String × PyVal)) (t0 t1 : ℚ) : MeasurementJson :=
  { name := name
    args := PyVal.tuple args
    kwargs := PyVal.dict kwargs
    method := method
    startedAt := t0
    endedAt := t1
    elapsed := stopElapsed t0 t1
    context := context
    profile_stats := PyVal.none }

/-! ## Sqlite backend (`storage/sqlite.py`) -/

/-- One row of the sqlite measurements table: JSON-valued columns hold the
serialized text, exactly as the `TEXT` columns do. -/
structure SqliteRow where
  id : ℕ
  startedAt : ℚ
  endedAt : ℚ
  elapsed : ℚ
  args : String
  kwargs : String
  method : String
  context : String
  name : String
deriving DecidableEq

/-- The sqlite backend state: the measurements table plus the autoincrement
counter (`ID Integer PRIMARY KEY AUTOINCREMENT`, so fresh ids exceed every
id ever assigned). -/
structure SqliteState where
  rows : List SqliteRow
  nextId : ℕ
deriving DecidableEq

/-- A freshly created sqlite store (autoincrement starts at 1). -/
def sqliteEmpty : SqliteState := { rows := [], nextId := 1 }

/-- `Sqlite.insert`: serializes `args` (after `list(...)`), `kwargs` and
`context` to JSON text and appends one row; `elapsed` is stored exactly as
received, `startedAt`/`endedAt` pass through `float(...)` unchanged. -/
def Sqlite.insert (st : SqliteState) (kwds : MeasurementJson) : SqliteState :=
  { rows := st.rows ++
      [{ id := st.nextId
         startedAt := kwds.startedAt
         endedAt := kwds.endedAt
         elapsed := kwds.elapsed
         args := (pyList kwds.args).dumps
         kwargs := kwds.kwargs.dumps
         method := kwds.method
         context := kwds.context.dumps
         name := kwds.name }]
    nextId := st.nextId + 1 }

/-- The dictionary `Sqlite.jsonify_row` builds from a row (`args` decoded
and converted back to a tuple). -/
structure MeasurementRecord where
  id : ℕ
  startedAt : ℚ
  endedAt : ℚ
  elapsed : ℚ
  args : PyVal
  kwargs : PyVal
  method : String
  context : PyVal
  name : String

/-- `Sqlite.jsonify_row`; a JSON decoding failure (impossible for rows
written by `insert`) is modelled as `none`. -/
def Sqlite.jsonify_row (r : SqliteRow) : Option MeasurementRecord :=
  match loads r.args, loads r.kwargs, loads r.context with
  | Option.some a, Option.some k, Option.some c =>
    Option.some
      { id := r.id
        startedAt := r.startedAt
        endedAt := r.endedAt
        elapsed := r.elapsed
        args := pyTuple a
        kwargs := k
        method := r.method
        context := c
        name := r.name }
  | _, _, _ => Option.none

/-- `Sqlite.get`: point lookup by primary key; the empty-dictionary result
for an absent id is modelled as `none`. -/
def Sqlite.get (st : SqliteState) (mid : ℕ) : Option MeasurementRecord :=
  match st.rows.find? (fun r => decide (r.id = mid)) with
  | Option.some r => Sqlite.jsonify_row r
  | Option.none => Option.none

/-- `Sqlite.delete`: `DELETE ... WHERE ID=?`, then `cursor.rowcount > 0`. -/
def Sqlite.delete (st : SqliteState) (mid : ℕ) : Bool × SqliteState :=
  let deleted := st.rows.countP (fun r => decide (r.id = mid))
  (decide (0 < deleted), { st with rows := st.rows.filter (fun r => decide (r.id ≠ mid)) })

/-- `Sqlite.ALLOWED_SORT_MAIN`. -/
def ALLOWED_SORT_MAIN : List String :=
  ["ID", "startedAt", "endedAt", "elapsed", "method", "name"]

/-- `Sqlite.ALLOWED_SORT_SUMMARY`. -/
def ALLOWED_SORT_SUMMARY : List String :=
  ["method", "name", "count", "minElapsed", "maxElapsed", "avgElapsed"]

/-- Split a character list at every occurrence of a separator. -/
def splitOnCharAux (sep : Char) : List Char → List Char → List (List Char)
  | [], acc => [acc.reverse]
  | c :: rest, acc =>
    if c = sep then acc.reverse :: splitOnCharAux sep rest []
    else splitOnCharAux sep rest (c :: acc)

/-- Python `"a,b".split(",")` (an empty string yields `[""]`). -/
def pySplitComma (s : String) : List String :=
  (splitOnCharAux ',' s.toList []).map String.mk

/-- Whitespace as `str.strip()` removes it. -/
def isSpaceCh (c : Char) : Bool :=
  c = ' ' || c = '\t' || c = '\n' || c = '\r'

/-- Python `str.strip()`: drop whitespace from both ends. -/
def pyStrip (s : String) : String :=
  String.mk (((s.toList.dropWhile isSpaceCh).reverse.dropWhile isSpaceCh).reverse)

/-- ASCII upcasing of one character. -/
def upperCh (c : Char) : Char :=
  if 'a' ≤ c ∧ c ≤ 'z' then Char.ofNat (c.toNat - 32) else c

/-- Python `str.upper()` on the ASCII tokens the sort input uses. -/
def pyUpper (s : String) : String :=
  String.mk (s.toList.map upperCh)

/-- The `sort` entry of `getFilters`:
`kwargs.get("sort", "endedAt,desc").split(",")`. -/
def sortFilterOf (sortParam : Option String) : List String :=
  pySplitComma (sortParam.getD "endedAt,desc")

/-- `Sqlite._sanitize_sort`: field falls back to the default when not in
the allow-list, direction falls back unless `ASC`/`DESC` (after upcasing). -/
def Sqlite.sanitize_sort (requested allowed : List String)
    (defaultField defaultDir : String) : String × String :=
  let field := match requested with
    | [] => defaultField
    | f :: _ => pyStrip f
  let direction := pyUpper (match requested with
    | _ :: d :: _ => pyStrip d
    | _ => defaultDir)
  let field2 := if allowed.contains field then field else defaultField
  let direction2 := if direction = "ASC" || direction = "DESC" then direction else defaultDir
  (field2, direction2)

/-- The `ORDER BY` pair used by `Sqlite.filter`. -/
def Sqlite.filter_sort (sortParam : Option String) : String × String :=
  Sqlite.sanitize_sort (sortFilterOf sortParam) ALLOWED_SORT_MAIN "endedAt" "DESC"

/-- The `ORDER BY` pair used by `Sqlite.getSummary`. -/
def Sqlite.summary_sort (sortParam : Option String) : String × String :=
  Sqlite.sanitize_sort (sortFilterOf sortParam) ALLOWED_SORT_SUMMARY "count" "DESC"

/-! ### Timeseries -/

/-- Python-dict assignment `d[k] = v` on an insertion-ordered association
list: overwrite in place if the key exists, else append. -/
def dictSet (d : List (String × ℕ)) (k : String) (v : ℕ) : List (String × ℕ) :=
  if d.any (fun kv => decide (kv.1 = k)) then
    d.map (fun kv => if kv.1 = k then (k, v) else kv)
  else d ++ [(k, v)]

/-- Python-dict lookup `d.get(k)`. -/
def dictGet (d : List (String × ℕ)) (k : String) : Option ℕ :=
  (d.find? (fun kv => decide (kv.1 = k))).map Prod.snd

/-- `Sqlite.getTimeseries` for an explicit window `[startedAtF, endedAtF]`
(the caller-supplied `startedAt`/`endedAt` filters) and granularity.
The SQL groups in-window rows by the date label of their `startedAt`; the
zero-filled skeleton steps from `int(startedAt)` to `int(endedAt)` in
`interval` increments; group counts then overwrite their labels. -/
def Sqlite.getTimeseries (st : SqliteState) (startedAtF endedAtF : ℚ)
    (daily : Bool) : List (String × ℕ) :=
  let interval : ℕ := if daily then 3600 * 24 else 3600
  let labels := (st.rows.filter
      (fun r => decide (r.endedAt ≤ endedAtF) && decide (startedAtF ≤ r.startedAt))).map
    (fun r => formatDateQ r.startedAt daily)
  let series := (rangeList (pyInt startedAtF) (pyInt endedAtF + 1) interval).foldl
    (fun d i => dictSet d (formatDateZ i daily) 0) []
  labels.eraseDups.foldl (fun d t => dictSet d t (labels.count t)) series

/-! ## Sqlalchemy backend (`storage/sql_alchemy.py`) -/

/-- One row of `flask_profiler_measurements`: `Sqlalchemy.insert` passes
`startedAt`/`endedAt` through `int(...)`, quantizes `elapsed`, and stores
`args`/`kwargs`/`context` as JSON text; `profileStats` is nullable text. -/
structure SaRow where
  id : ℕ
  startedAt : ℤ
  endedAt : ℤ
  elapsed : ℚ
  method : String
  args : String
  kwargs : String
  name : String
  context : String
  profileStats : Option String
deriving DecidableEq

/-- The sqlalchemy backend state: the measurements table, the single
`flask_profiler_metadata` row (`last_retention_deletion_time`, created as 0
at initialization), and the primary-key counter. -/
structure SaState where
  rows : List SaRow
  lastRetention : ℚ
  nextId : ℕ
deriving DecidableEq

/-- A freshly initialized sqlalchemy store. -/
def saEmpty : SaState := { rows := [], lastRetention := 0, nextId := 1 }

/-- `Sqlalchemy.insert`.  `int()` truncates the two timestamps;
`Decimal(elapsed)` is quantized up at 4 places when nonzero (the Python
`if elapsed:` truthiness test).  The inserted dictionary carries the
`profile_stats` key, so `kwds.get("profileStats", None)` yields `None`. -/
def Sqlalchemy.insert (st : SaState) (kwds : MeasurementJson) : SaState :=
  { st with
    rows := st.rows ++
      [{ id := st.nextId
         startedAt := pyInt kwds.startedAt
         endedAt := pyInt kwds.endedAt
         elapsed := if kwds.elapsed = 0 then kwds.elapsed else decimalQuantizeUp4 kwds.elapsed
         method := kwds.method
         args := (pyList kwds.args).dumps
         kwargs := kwds.kwargs.dumps
         name := kwds.name
         context := kwds.context.dumps
         profileStats := Option.none }]
    nextId := st.nextId + 1 }

/-- The dictionary `Sqlalchemy.jsonify_row` builds from a row. -/
structure SaRecord where
  id : ℕ
  startedAt : ℤ
  endedAt : ℤ
  elapsed : ℚ
  method : String
  args : PyVal
  kwargs : PyVal
  name : String
  context : PyVal
  profileStats : Option PyVal

/-- `json.loads(row.profileStats) if row.profileStats else None`. -/
def jsonifyStats : Option String → Option (Option PyVal)
  | Option.none => Option.some Option.none
  | Option.some s => (loads s).map Option.some

/-- `Sqlalchemy.jsonify_row`; a JSON decoding failure is modelled as
`none` (it cannot occur for rows written by `insert`). -/
def Sqlalchemy.jsonify_row (r : SaRow) : Option SaRecord :=
  match loads r.args, loads r.kwargs, loads r.context, jsonifyStats r.profileStats with
  | Option.some a, Option.some k, Option.some c, Option.some ps =>
    Option.some
      { id := r.id
        startedAt := r.startedAt
        endedAt := r.endedAt
        elapsed := r.elapsed
        method := r.method
        args := pyTuple a
        kwargs := k
        name := r.name
        context := c
        profileStats := ps }
  | _, _, _, _ => Option.none

/-- `Sqlalchemy.get`: `filter_by(id=...).first()`, empty dictionary (here
`none`) when absent. -/
def Sqlalchemy.get (st : SaState) (mid : ℕ) : Option SaRecord :=
  match st.rows.find? (fun r => decide (r.id = mid)) with
  | Option.some r => Sqlalchemy.jsonify_row r
  | Option.none => Option.none

/-- `Sqlalchemy.delete`: deletes matching rows, commits, and returns
`True` whether or not any row matched (only an exception yields `False`). -/
def Sqlalchemy.delete (st : SaState) (mid : ℕ) : Bool × SaState :=
  (true, { st with rows := st.rows.filter (fun r => decide (r.id ≠ mid)) })

/-- `Sqlalchemy.retention_deletion` as a state transition at wall-clock
`now` with configured `retention_period_s = period`: under the exclusive
metadata lock, if `last_retention_deletion_time + period / 4 < now` the
metadata row is set to `now`, rows with `startedAt + period < now` are
deleted, both commit together, and the call returns `True`; otherwise the
transaction ends without modification and the call returns `False`. -/
def Sqlalchemy.retention_deletion (period now : ℚ) (st : SaState) : Bool × SaState :=
  if st.lastRetention + period / 4 < now then
    (true,
      { st with
        lastRetention := now
        rows := st.rows.filter (fun r => !decide ((r.startedAt : ℚ) + period < now)) })
  else (false, st)

/-- The column attributes of the `Measurements` model (the names `getattr`
can resolve). -/
def MEASUREMENT_COLUMNS : List String :=
  ["id", "startedAt", "endedAt", "elapsed", "method", "args", "kwargs", "name",
   "context", "profileStats"]

/-- The `ORDER BY` computation of `Sqlalchemy.filter`: it indexes
`f["sort"][1]` (an `IndexError` when the sort token has no comma) and then
resolves `getattr(Measurements, f["sort"][0])` (an `AttributeError` when
the field is not a column) — there is no allow-list fallback.  Returns the
column name and whether the order is descending. -/
def Sqlalchemy.filter_order (sort : List String) : Except String (String × Bool) :=
  match sort with
  | f :: d :: _ =>
    if MEASUREMENT_COLUMNS.contains f then Except.ok (f, decide (d = "desc"))
    else Except.error "AttributeError"
  | _ => Except.error "IndexError"

/-! ## Recorder (`flask_profiler.py`) -/

/-- `is_ignored(name, conf)`: true when any configured pattern matches the
name under `re.search`.  The regular-expression engine is external to the
repository, so the search primitive is a parameter; for a pattern without
metacharacters `re.search` is substring search (`reSearchLit` below). -/
def is_ignored (search : String → String → Bool) (name : String)
    (ignorePatterns : List String) : Bool :=
  ignorePatterns.any (fun pattern => search pattern name)

/-- Does `p` occur as a prefix of `s` (on character lists)? -/
def listStartsWith : List Char → List Char → Bool
  | [], _ => true
  | _ :: _, [] => false
  | p :: ps, c :: cs => decide (p = c) && listStartsWith ps cs

/-- Does `p` occur as a contiguous sublist of `s`? -/
def listContainsSub (p s : List Char) : Bool :=
  match s with
  | [] => p.isEmpty
  | _ :: rest => listStartsWith p s || listContainsSub p rest

/-- `re.search` for a pattern free of regex metacharacters: substring
search anywhere in the name (not a full match). -/
def reSearchLit (pattern s : String) : Bool :=
  listContainsSub pattern.toList s.toList

/-- The outcome of invoking the wrapped callable: a normal return or a
raised exception (identified by a tag). -/
inductive Outcome (α : Type) : Type where
  | ok (v : α)
  | exc (e : String)
deriving DecidableEq

/-- Result of `_ProfilerState._record_call`: the propagated outcome, the
storage contents after the call, and the position of the wall-clock stream
(how many `time.time()` reads have happened). -/
structure RecordResult (α : Type) where
  outcome : Outcome α
  store : List MeasurementJson
  clockPos : ℕ

/-- `_ProfilerState._record_call`.  The ignore/sampling decision happens
first, before any clock read; otherwise `start()` reads the clock, the
callable runs (its outcome is `func`), and the `finally` block
unconditionally reads the clock again, computes `elapsed`, and pushes the
measurement to storage before control returns.  `sample` is the value of
the sampling predicate for this invocation. -/
def record_call {α : Type} (search : String → String → Bool) (ignorePatterns : List String)
    (sample : Bool) (func : Outcome α) (name method : String) (context : PyVal)
    (args : List PyVal) (kwargs : List (String × PyVal)) (clock : ℕ → ℚ) (pos : ℕ)
    (store : List MeasurementJson) : RecordResult α :=
  if is_ignored search name ignorePatterns || !sample then
    { outcome := func, store := store, clockPos := pos }
  else
    let t0 := clock pos
    let t1 := clock (pos + 1)
    { outcome := func
      store := store ++ [mkMeasurementJson name method context args kwargs t0 t1]
      clockPos := pos + 2 }

/-- `_ProfilerState._record_call_async`: identical semantics to
`_record_call` with cooperative suspension at the invocation and the same
`finally` block. -/
def record_call_async {α : Type} (search : String → String → Bool) (ignorePatterns : List String)
    (sample : Bool) (func : Outcome α) (name method : String) (context : PyVal)
    (args : List PyVal) (kwargs : List (String × PyVal)) (clock : ℕ → ℚ) (pos : ℕ)
    (store : List MeasurementJson) : RecordResult α :=
  if is_ignored search name ignorePatterns || !sample then
    { outcome := func, store := store, clockPos := pos }
  else
    let t0 := clock pos
    let t1 := clock (pos + 1)
    { outcome := func
      store := store ++ [mkMeasurementJson name method context args kwargs t0 t1]
      clockPos := pos + 2 }

/-- `n` successive invocations through `_record_call` of the same wrapped
callable; invocation `k` sees sampling result `sample k` and outcome
`funcs k`, threading the clock position and the storage state. -/
def record_calls {α : Type} (search : String → String → Bool) (ignorePatterns : List String)
    (sample : ℕ → Bool) (funcs : ℕ → Outcome α) (name method : String) (context : PyVal)
    (args : List PyVal) (kwargs : List (String × PyVal)) (clock : ℕ → ℚ) :
    ℕ → ℕ → ℕ → List MeasurementJson → ℕ × List MeasurementJson
  | _, 0, pos, store => (pos, store)
  | k, n + 1, pos, store =>
    let r := record_call search ignorePatterns (sample k) (funcs k) name method context
      args kwargs clock pos store
    record_calls search ignorePatterns sample funcs name method context args kwargs clock
      (k + 1) n r.clockPos r.store

/-! ## Endpoint wrapping (`wrap_http_endpoint`, `profile`) -/

/-- A view callable as the wrapping machinery sees it: the
`_flask_profiler_wrapped` marker attribute (false when absent) and the
invocation behaviour, modelled as a storage transformer returning the
response. -/
structure Endpoint (α : Type) : Type where
  wrapped : Bool
  run : List MeasurementJson → List MeasurementJson × Outcome α

/-- `_ProfilerState.wrap_http_endpoint`: an already-marked callable is
returned unchanged; otherwise the wrapper (which records one measurement
`m` around the underlying invocation on the measured path) is returned,
carrying the marker. -/
def wrap_http_endpoint {α : Type} (m : MeasurementJson) (f : Endpoint α) : Endpoint α :=
  if f.wrapped then f
  else
    { wrapped := true
      run := fun store =>
        let r := f.run store
        (r.1 ++ [m], r.2) }

/-- The `profile()` decorator: the same marker check and marker-carrying
wrapper as `wrap_http_endpoint`. -/
def profileDecorator {α : Type} (m : MeasurementJson) (f : Endpoint α) : Endpoint α :=
  if f.wrapped then f
  else
    { wrapped := true
      run := fun store =>
        let r := f.run store
        (r.1 ++ [m], r.2) }

/-- `Sqlalchemy.getTimeseries` for an explicit window and granularity: the
same pipeline as the sqlite backend, grouping in Python (`set` + `count`;
the final key-to-count mapping is order-insensitive, and re-parsing a
label with `strptime` and re-formatting it is the identity on well-formed
labels, so groups are folded in first-occurrence order). -/
def Sqlalchemy.getTimeseries (st : SaState) (startedAtF endedAtF : ℚ)
    (daily : Bool) : List (String × ℕ) :=
  let interval : ℕ := if daily then 3600 * 24 else 3600
  let labels := (st.rows.filter
      (fun r => decide ((r.endedAt : ℚ) ≤ endedAtF) && decide (startedAtF ≤ (r.startedAt : ℚ)))).map
    (fun r => formatDateZ r.startedAt daily)
  let series := (rangeList (pyInt startedAtF) (pyInt endedAtF + 1) interval).foldl
    (fun d i => dictSet d (formatDateZ i daily) 0) []
  labels.eraseDups.foldl (fun d t => dictSet d t (labels.count t)) series

/-! ## Concrete instances used by witnesses and counterexamples -/

/-- The round-trip measurement of the spec: `args=(1,2)`,
`kwargs={"k":"v"}`, `context={"a":1}`. -/
def m7 : MeasurementJson :=
  { name := "add"
    args := PyVal.tuple [PyVal.int 1, PyVal.int 2]
    kwargs := PyVal.dict [("k", PyVal.str "v")]
    method := "call"
    startedAt := 100
    endedAt := 101
    elapsed := 1
    context := PyVal.dict [("a", PyVal.int 1)]
    profile_stats := PyVal.none }

/-- A measurement with fractional timestamps and a 6-decimal elapsed. -/
def mFrac : MeasurementJson :=
  { name := "n"
    args := PyVal.tuple []
    kwargs := PyVal.dict []
    method := "GET"
    startedAt := 100.5
    endedAt := 101.25
    elapsed := 0.123456
    context := PyVal.dict []
    profile_stats := PyVal.none }

/-- A stored sqlite row whose `startedAt` falls in the fourth hour bucket
of the aligned timeseries example. -/
def r13a : SqliteRow :=
  { id := 1, startedAt := 47000, endedAt := 47010, elapsed := 1,
    args := "[]", kwargs := "[]", method := "GET", context := "\x7b\x7d", name := "/x" }

/-- A second row in the same hour bucket. -/
def r13b : SqliteRow :=
  { id := 2, startedAt := 47100, endedAt := 47110, elapsed := 1,
    args := "[]", kwargs := "[]", method := "GET", context := "\x7b\x7d", name := "/x" }

/-- Sqlite store for the timeseries example: two records in the hour
starting 1970-01-01 13:00 UTC, nothing elsewhere. -/
def ts4State : SqliteState := { rows := [r13a, r13b], nextId := 3 }

/-- The same two records in the sqlalchemy store. -/
def saTsState : SaState :=
  { rows :=
      [{ id := 1, startedAt := 47000, endedAt := 47010, elapsed := 1, method := "GET",
         args := "[]", kwargs := "[]", name := "/x", context := "\x7b\x7d",
         profileStats := Option.none },
       { id := 2, startedAt := 47100, endedAt := 47110, elapsed := 1, method := "GET",
         args := "[]", kwargs := "[]", name := "/x", context := "\x7b\x7d",
         profileStats := Option.none }]
    lastRetention := 0
    nextId := 3 }

/-- A measurement row old enough to fall out of a 100 s retention window
at `now = 200`. -/
def saRow50 : SaRow :=
  { id := 1, startedAt := 50, endedAt := 51, elapsed := 1, method := "GET",
    args := "[]", kwargs := "[]", name := "/a", context := "\x7b\x7d",
    profileStats := Option.none }

/-- A measurement row still inside the retention window at `now = 200`. -/
def saRow150 : SaRow :=
  { id := 2, startedAt := 150, endedAt := 151, elapsed := 1, method := "GET",
    args := "[]", kwargs := "[]", name := "/a", context := "\x7b\x7d",
    profileStats := Option.none }

/-- Retention scenario state: metadata still at its initial 0. -/
def c1State : SaState := { rows := [saRow50, saRow150], lastRetention := 0, nextId := 3 }

/-- A sqlite store holding exactly one row with id 1. -/
def oneRowState : SqliteState :=
  { rows :=
      [{ id := 1, startedAt := 100, endedAt := 101, elapsed := 1,
         args := "[]", kwargs := "[]", method := "GET", context := "\x7b\x7d", name := "/a" }]
    nextId := 2 }

/-- A concrete wall clock: read `n` yields `100 + n` seconds. -/
def clock0 (n : ℕ) : ℚ := 100 + (n : ℚ)

/-- A sampling predicate returning true on every invocation. -/
def sampleAll (_n : ℕ) : Bool := true

/-- Invocation outcomes for the repetition witness: every call returns 5. -/
def funcsOk (_n : ℕ) : Outcome ℕ := Outcome.ok 5

/-- An unwrapped view callable that touches no storage and returns 5. -/
def f0 : Endpoint ℕ :=
  { wrapped := false, run := fun store => (store, Outcome.ok 5) }

/-! ## Theorems -/

/-- Helper: `find?` over an append hits the freshly appended element when
the predicate rejects every earlier element and accepts it. -/
theorem find?_append_fresh {β : Type} (p : β → Bool) (xs : List β) (y : β)
    (hxs : ∀ x ∈ xs, p x = false) (hy : p y = true) :
    (xs ++ [y]).find? p = Option.some y := by
  induction xs with
  | nil => simp [List.find?, hy]
  | cons a as ih =>
    have ha := hxs a (by simp)
    simp only [List.cons_append, List.find?, ha]
    exact ih (fun x hx => hxs x (by simp [hx]))

/-- C1: `retention_deletion()` with configured period `p` at wall-clock
`now`: when `lastRetentionDeletionTime + p/4 < now` it returns true, sets
the metadata row to `now`, and deletes exactly the measurement rows with
`startedAt + p < now` in the same committed transaction (the resulting
state is the one atomic update); otherwise it returns false and the state
is unchanged. -/
theorem c1_retention_deletion (period now : ℚ) (st : SaState) :
    (st.lastRetention + period / 4 < now →
      Sqlalchemy.retention_deletion period now st =
        (true,
          { st with
            lastRetention := now
            rows := st.rows.filter (fun r => !decide ((r.startedAt : ℚ) + period < now)) }) ∧
      ∀ r : SaRow,
        r ∈ (Sqlalchemy.retention_deletion period now st).2.rows ↔
          r ∈ st.rows ∧ ¬ ((r.startedAt : ℚ) + period < now)) ∧
    (¬ st.lastRetention + period / 4 < now →
      Sqlalchemy.retention_deletion period now st = (false, st)) := by
  constructor
  · intro h
    constructor
    · simp [Sqlalchemy.retention_deletion, h]
    · intro r
      simp [Sqlalchemy.retention_deletion, h, List.mem_filter]
  · intro h
    simp [Sqlalchemy.retention_deletion, h]

/-- C1 witness: period 100 at `now = 200` with metadata at 0: the stale
row (`startedAt = 50`) is deleted, the fresh row (`startedAt = 150`)
survives, the metadata moves to 200 and the call returns true. -/
theorem c1_retention_witness :
    Sqlalchemy.retention_deletion 100 200 c1State =
      (true, { rows := [saRow150], lastRetention := 200, nextId := 3 }) := by
  have h := ((c1_retention_deletion 100 200 c1State).1 (by norm_num [c1State])).1
  rw [h]
  norm_num [c1State, saRow50, saRow150]

/-- C2: a measured invocation (not ignored, sampling true) returns the
callable's own outcome unchanged — a normal value or the original raised
exception — and pushes exactly one measurement record, stamped with the
two clock reads and the computed elapsed, to storage before control
returns; the suspending variant behaves identically. -/
theorem c2_record_and_propagate {α : Type} (search : String → String → Bool)
    (ignorePatterns : List String) (func : Outcome α) (name method : String)
    (context : PyVal) (args : List PyVal) (kwargs : List (String × PyVal))
    (clock : ℕ → ℚ) (pos : ℕ) (store : List MeasurementJson)
    (hig : is_ignored search name ignorePatterns = false) :
    record_call search ignorePatterns true func name method context args kwargs clock pos store =
      { outcome := func
        store := store ++
          [mkMeasurementJson name method context args kwargs (clock pos) (clock (pos + 1))]
        clockPos := pos + 2 } ∧
    record_call_async search ignorePatterns true func name method context args kwargs clock pos store =
      record_call search ignorePatterns true func name method context args kwargs clock pos store := by
  constructor
  · simp [record_call, hig]
  · simp [record_call, record_call_async]

/-- C2 witness: a wrapped call that raises (`ValueError`) with a
non-matching ignore list still appends exactly one measurement and
re-raises the original exception. -/
theorem c2_record_witness :
    record_call reSearchLit ["static"] true (Outcome.exc "ValueError" : Outcome ℕ)
        "/api/x" "GET" PyVal.none [] [] clock0 0 [] =
      { outcome := Outcome.exc "ValueError"
        store := [mkMeasurementJson "/api/x" "GET" PyVal.none [] [] (clock0 0) (clock0 1)]
        clockPos := 2 } := by
  simpa using
    (c2_record_and_propagate reSearchLit ["static"] (Outcome.exc "ValueError" : Outcome ℕ)
      "/api/x" "GET" PyVal.none [] [] clock0 0 [] rfl).1

/-- C5: the ignore/sampling decision is taken per-invocation before any
clock read: an ignored name or a false sampling result invokes the
callable unchanged, leaves storage untouched, and consumes no clock reads;
consequently any number of invocations of an ignored name store nothing. -/
theorem c5_ignored_never_stored {α : Type} (search : String → String → Bool)
    (ignorePatterns : List String) (sample : Bool) (func : Outcome α)
    (name method : String) (context : PyVal) (args : List PyVal)
    (kwargs : List (String × PyVal)) (clock : ℕ → ℚ) (pos : ℕ)
    (store : List MeasurementJson) :
    (is_ignored search name ignorePatterns = true ∨ sample = false →
      record_call search ignorePatterns sample func name method context args kwargs clock pos store =
        { outcome := func, store := store, clockPos := pos }) ∧
    (is_ignored search name ignorePatterns = true →
      ∀ (sampleSeq : ℕ → Bool) (funcs : ℕ → Outcome α) (k n : ℕ),
        record_calls search ignorePatterns sampleSeq funcs name method context args kwargs clock
          k n pos store = (pos, store)) := by
  constructor
  · intro h
    rcases h with h | h
    · simp [record_call, h]
    · subst h
      simp [record_call]
  · intro h sampleSeq funcs k n
    induction n generalizing k with
    | zero => rfl
    | succ n ih =>
      simp only [record_calls, record_call, h, Bool.true_or, if_pos]
      exact ih (k + 1)

/-- C5 witness: `"static"` matches `"/static/photo/"` under substring
search, and three successive invocations of the wrapped callable store
nothing and never read the clock. -/
theorem c5_ignored_witness :
    is_ignored reSearchLit "/static/photo/" ["static"] = true ∧
    record_calls reSearchLit ["static"] sampleAll funcsOk "/static/photo/" "GET"
      PyVal.none [] [] clock0 0 3 0 [] = (0, []) := by
  refine ⟨rfl, ?_⟩
  exact (c5_ignored_never_stored reSearchLit ["static"] true (Outcome.ok 5) "/static/photo/"
    "GET" PyVal.none [] [] clock0 0 []).2 rfl sampleAll funcsOk 0 3

/-- C10: wrapping is idempotent through the `_flask_profiler_wrapped`
marker: a marked callable is returned unchanged by `wrap_http_endpoint`
and by the `profile()` decorator, re-wrapping in any combination is the
identity, and a doubly-registered endpoint still records exactly one
measurement per invocation. -/
theorem c10_wrap_idempotent {α : Type} (m m2 : MeasurementJson) (f : Endpoint α) :
    (f.wrapped = true → wrap_http_endpoint m f = f ∧ profileDecorator m f = f) ∧
    wrap_http_endpoint m2 (wrap_http_endpoint m f) = wrap_http_endpoint m f ∧
    profileDecorator m2 (wrap_http_endpoint m f) = wrap_http_endpoint m f ∧
    wrap_http_endpoint m2 (profileDecorator m f) = profileDecorator m f ∧
    (f.wrapped = false → ∀ store,
      ((wrap_http_endpoint m2 (wrap_http_endpoint m f)).run store).1 =
        (f.run store).1 ++ [m]) := by
  cases hw : f.wrapped with
  | true => simp [wrap_http_endpoint, profileDecorator, hw]
  | false => simp [wrap_http_endpoint, profileDecorator, hw]

/-- C10 witness: double-wrapping the unwrapped view `f0` equals single
wrapping, and one invocation of the doubly-wrapped endpoint appends
exactly one measurement. -/
theorem c10_wrap_witness :
    wrap_http_endpoint m7 (wrap_http_endpoint m7 f0) = wrap_http_endpoint m7 f0 ∧
    ((wrap_http_endpoint m7 (wrap_http_endpoint m7 f0)).run []).1 = [m7] := by
  refine ⟨(c10_wrap_idempotent m7 m7 f0).2.1, ?_⟩
  simpa [f0] using (c10_wrap_idempotent m7 m7 f0).2.2.2.2 rfl []

/-- C3: evaluating the sort handling at the failing input
`sort = "badfield,desc"`: the sqlite backend sanitizes it to the fixed
defaults for both `filter` and `getSummary`, but `Sqlalchemy.filter`
resolves the field with `getattr` and raises `AttributeError` (and a
one-token sort such as `"endedAt"` raises `IndexError`), instead of
falling back. -/
theorem c3_sqlalchemy_sort_bug :
    Sqlite.filter_sort (Option.some "badfield,desc") = ("endedAt", "DESC") ∧
    Sqlite.summary_sort (Option.some "badfield,desc") = ("count", "DESC") ∧
    Sqlalchemy.filter_order (pySplitComma "badfield,desc") = Except.error "AttributeError" ∧
    Sqlalchemy.filter_order (pySplitComma "endedAt") = Except.error "IndexError" ∧
    Sqlalchemy.filter_order (pySplitComma "endedAt,desc") = Except.ok ("endedAt", true) :=
  ⟨by decide, by decide, rfl, rfl, rfl⟩

/-- C4 counterexample: for a measurement with `elapsed = 0.123456` the
sqlite backend persists `0.123456` itself, which differs from the
4-decimal round-up `0.1235`, refuting the claim that every backend
persists the rounded-up value. -/
theorem c4_sqlite_elapsed_cex :
    ((Sqlite.insert sqliteEmpty mFrac).rows.map (fun r => r.elapsed)) = [0.123456] ∧
    decimalQuantizeUp4 0.123456 = 0.1235 ∧ (0.123456 : ℚ) ≠ (0.1235 : ℚ) := by
  refine ⟨by norm_num [Sqlite.insert, sqliteEmpty, mFrac], ?_, by norm_num⟩
  norm_num [decimalQuantizeUp4, ceilQ]

/-- C4 as amended: capture computes
`elapsed = round(endedAt - startedAt, 6)`; the sqlalchemy backend persists
that value rounded up (away from zero) at 4 decimal places, while the
sqlite backend persists the captured 6-decimal value unchanged. -/
theorem c4_elapsed_rounding (t0 t1 : ℚ) (st : SqliteState) (sa : SaState)
    (m : MeasurementJson) :
    stopElapsed t0 t1 = pyRound (t1 - t0) 6 ∧
    ((Sqlite.insert st m).rows.map (fun r => r.elapsed)) =
      (st.rows.map (fun r => r.elapsed)) ++ [m.elapsed] ∧
    ((Sqlalchemy.insert sa m).rows.map (fun r => r.elapsed)) =
      (sa.rows.map (fun r => r.elapsed)) ++ [decimalQuantizeUp4 m.elapsed] := by
  refine ⟨rfl, by simp [Sqlite.insert], ?_⟩
  by_cases h0 : m.elapsed = 0
  · have hq : decimalQuantizeUp4 0 = 0 := by norm_num [decimalQuantizeUp4, ceilQ]
    simp [Sqlalchemy.insert, h0, hq]
  · simp [Sqlalchemy.insert, h0]

/-- C6 counterexample: hourly timeseries over the window
`[37800, 47400]` (10:30 to 13:10 UTC on 1970-01-01) with an empty store:
the hour bucket starting at 46800 (label `"1970-01-01 13"`) lies inside
the window but is absent from the result, which holds only the three
stepped buckets — refuting the dense-bucket claim for windows whose start
is not bucket-aligned. -/
theorem c6_missing_bucket_cex :
    dictGet (Sqlite.getTimeseries sqliteEmpty 37800 47400 false) "1970-01-01 13" =
      Option.none ∧
    formatDateZ 46800 false = "1970-01-01 13" ∧
    (37800 : ℚ) ≤ 46800 ∧ (46800 : ℚ) ≤ 47400 ∧
    Sqlite.getTimeseries sqliteEmpty 37800 47400 false =
      [("1970-01-01 10", 0), ("1970-01-01 11", 0), ("1970-01-01 12", 0)] := by
  refine ⟨by decide, by decide, by decide, by decide, by decide⟩

/-- C6 as amended: the zero-count skeleton steps from `int(startedAt)` in
interval increments up to `int(endedAt)` and record buckets overlay their
counts, so for a bucket-aligned window every bucket is present: the spec
example — a window spanning 3 empty hours and 1 hour holding 2 records —
yields exactly 4 buckets, three with count 0 and one with count 2, with
labels `"YYYY-MM-DD HH"` hourly and `"YYYY-MM-DD"` daily, on both
backends. -/
theorem c6_timeseries_dense_aligned :
    Sqlite.getTimeseries ts4State 36000 50000 false =
      [("1970-01-01 10", 0), ("1970-01-01 11", 0), ("1970-01-01 12", 0),
       ("1970-01-01 13", 2)] ∧
    Sqlalchemy.getTimeseries saTsState 36000 50000 false =
      [("1970-01-01 10", 0), ("1970-01-01 11", 0), ("1970-01-01 12", 0),
       ("1970-01-01 13", 2)] ∧
    formatDateZ 36000 false = "1970-01-01 10" ∧
    formatDateZ 90000 true = "1970-01-02" := by
  refine ⟨by decide, by decide, by decide, by decide⟩

/-- C7: inserting the measurement `args=(1,2)`, `kwargs={"k":"v"}`,
`context={"a":1}` into either backend and reading it back under its
assigned id returns structurally equal `args` / `kwargs` / `context`
after the JSON round-trip, with `args` restored as a tuple. -/
theorem c7_roundtrip (st : SqliteState) (sa : SaState)
    (h : ∀ r ∈ st.rows, r.id < st.nextId) (h2 : ∀ r ∈ sa.rows, r.id < sa.nextId) :
    (Sqlite.get (Sqlite.insert st m7) st.nextId).map
        (fun r => (r.args, r.kwargs, r.context)) =
      Option.some (PyVal.tuple [PyVal.int 1, PyVal.int 2],
        PyVal.dict [("k", PyVal.str "v")], PyVal.dict [("a", PyVal.int 1)]) ∧
    (Sqlalchemy.get (Sqlalchemy.insert sa m7) sa.nextId).map
        (fun r => (r.args, r.kwargs, r.context)) =
      Option.some (PyVal.tuple [PyVal.int 1, PyVal.int 2],
        PyVal.dict [("k", PyVal.str "v")], PyVal.dict [("a", PyVal.int 1)]) := by
  constructor
  · have hfind : (Sqlite.insert st m7).rows.find? (fun r => decide (r.id = st.nextId)) =
        Option.some
          { id := st.nextId, startedAt := m7.startedAt, endedAt := m7.endedAt,
            elapsed := m7.elapsed, args := (pyList m7.args).dumps,
            kwargs := m7.kwargs.dumps, method := m7.method,
            context := m7.context.dumps, name := m7.name } :=
      find?_append_fresh _ st.rows _
        (fun x hx => by simpa using Nat.ne_of_lt (h x hx)) (by simp)
    simp only [Sqlite.get, hfind]
    rfl
  · have hfind : (Sqlalchemy.insert sa m7).rows.find? (fun r => decide (r.id = sa.nextId)) =
        Option.some
          { id := sa.nextId, startedAt := pyInt m7.startedAt, endedAt := pyInt m7.endedAt,
            elapsed := if m7.elapsed = 0 then m7.elapsed else decimalQuantizeUp4 m7.elapsed,
            method := m7.method, args := (pyList m7.args).dumps,
            kwargs := m7.kwargs.dumps, name := m7.name,
            context := m7.context.dumps, profileStats := Option.none } :=
      find?_append_fresh _ sa.rows _
        (fun x hx => by simpa using Nat.ne_of_lt (h2 x hx)) (by simp)
    simp only [Sqlalchemy.get, hfind]
    rfl

/-- C7 witness: the round-trip at the freshly created stores, where the
new record receives id 1. -/
theorem c7_roundtrip_witness :
    (Sqlite.get (Sqlite.insert sqliteEmpty m7) 1).map
        (fun r => (r.args, r.kwargs, r.context)) =
      Option.some (PyVal.tuple [PyVal.int 1, PyVal.int 2],
        PyVal.dict [("k", PyVal.str "v")], PyVal.dict [("a", PyVal.int 1)]) := by
  exact (c7_roundtrip sqliteEmpty saEmpty (by simp [sqliteEmpty]) (by simp [saEmpty])).1

/-- C8 counterexample: deleting id 1 from an empty sqlalchemy store,
where no such record exists, still returns true (the code returns `True`
whenever the transaction commits), refuting the claimed success-false
for absent ids on every backend. -/
theorem c8_sqlalchemy_delete_cex :
    saEmpty.rows = [] ∧ Sqlalchemy.delete saEmpty 1 = (true, saEmpty) := by
  refine ⟨rfl, ?_⟩
  simp [Sqlalchemy.delete, saEmpty]

/-- C8 as amended: on both backends `delete(id)` removes exactly the rows
with that id; the sqlite backend returns true precisely when such a record
existed (`rowcount > 0`), while the sqlalchemy backend returns true
whenever the transaction commits, even when no record matched. -/
theorem c8_delete_semantics (st : SqliteState) (sa : SaState) (mid : ℕ) :
    ((Sqlite.delete st mid).1 = true ↔ ∃ r ∈ st.rows, r.id = mid) ∧
    (∀ r, r ∈ (Sqlite.delete st mid).2.rows ↔ r ∈ st.rows ∧ r.id ≠ mid) ∧
    (Sqlalchemy.delete sa mid).1 = true ∧
    (∀ r, r ∈ (Sqlalchemy.delete sa mid).2.rows ↔ r ∈ sa.rows ∧ r.id ≠ mid) := by
  refine ⟨?_, ?_, rfl, ?_⟩
  · simp [Sqlite.delete, List.countP_pos_iff]
  · intro r
    simp [Sqlite.delete, List.mem_filter]
  · intro r
    simp [Sqlalchemy.delete, List.mem_filter]

/-- C8 witness: the amended statement evaluated at a store holding only
id 1 — deleting id 1 reports an existing record. -/
theorem c8_delete_witness :
    (Sqlite.delete oneRowState 1).1 = true ↔ ∃ r ∈ oneRowState.rows, r.id = 1 :=
  (c8_delete_semantics oneRowState saEmpty 1).1

/-- C9: evaluated at a measurement captured with `startedAt = 100.5`,
`endedAt = 101.25`: the sqlalchemy backend's `insert` truncates both
timestamps with `int(...)` and stores 100 and 101, dropping the
fractional seconds the claim requires, while the sqlite backend stores
them unchanged. -/
theorem c9_sqlalchemy_truncates_timestamps :
    mFrac.startedAt = 100.5 ∧ mFrac.endedAt = 101.25 ∧
    ((Sqlalchemy.insert saEmpty mFrac).rows.map (fun r => (r.startedAt, r.endedAt))) =
      [(100, 101)] ∧
    ((100 : ℚ) ≠ 100.5 ∧ (101 : ℚ) ≠ 101.25) ∧
    ((Sqlite.insert sqliteEmpty mFrac).rows.map (fun r => (r.startedAt, r.endedAt))) =
      [(100.5, 101.25)] := by
  refine ⟨rfl, rfl, ?_, ⟨by norm_num, by norm_num⟩, ?_⟩
  · norm_num [Sqlalchemy.insert, pyInt, mFrac, saEmpty]
  · norm_num [Sqlite.insert, mFrac, sqliteEmpty]
